import Mathlib

/-!
# Verification of the gestapp climate/growth core

Shallow embedding of the computational core of the `gestapp` repository:
the shared calculations module (`calculateInsideTemperature`,
`generateRecommendations`, `calculateGrowthProjections`), the constants
module (`EQUIPMENT_SPECS`, `AGE_TARGETS`), and the equipment-aggregation
formulas embedded in the request-handling layer
(`POST /api/calculate-environment` in the routes file).

JavaScript numbers are modelled as exact rationals (ℚ); `Math.round` is
modelled as `⌊x + 1/2⌋` (round half toward +∞), which is its JS semantics.
`Math.PI` is modelled by the exact rational value of the IEEE-754 double
`3.141592653589793`.
-/

namespace Gestapp

/-- JS `Math.round`: nearest integer, ties toward +∞. -/
def jsRound (q : ℚ) : ℤ := ⌊q + 1/2⌋

/-- Source `Math.round(q * 10) / 10`: round to one decimal place. -/
def round1 (q : ℚ) : ℚ := (jsRound (q * 10) : ℚ) / 10

/-- Source `Math.round(q * 100) / 100`: round to two decimal places. -/
def round2 (q : ℚ) : ℚ := (jsRound (q * 100) : ℚ) / 100

/-- Farm geometry (schema table `farms`): the fields the core reads.
Meters, declared `real` in the schema. -/
structure Farm where
  length : ℚ
  width : ℚ
  height : ℚ
deriving DecidableEq

/-- Equipment discriminator (schema: `type: text` — `fan`, `heater` or `inlet`).
`other` covers any string that is none of the three. -/
inductive EquipType where
  | fan
  | heater
  | inlet
  | other
deriving DecidableEq, Repr

instance : BEq EquipType := ⟨fun a b => decide (a = b)⟩

/-- Equipment `specification` JSON (`diameter?`, `power?`, `surface?`).
The core reads each field through `?.field || 0`, so an absent or null
field behaves exactly like the value 0; we model the post-coalescing
values directly. -/
structure Specification where
  power : ℚ
  diameter : ℚ
  surface : ℚ
deriving DecidableEq

/-- Equipment row (schema table `equipment`): the fields the core reads.
A null `isActive` is falsy in every filter, i.e. behaves as `false`;
a null `currentSetting` is coalesced to 0 by `|| 0` at every read. -/
structure Equipment where
  type : EquipType
  isActive : Bool
  currentSetting : ℚ
  specification : Specification
deriving DecidableEq

/-- Flock row (schema table `flocks`): the fields `calculateGrowthProjections`
destructures. The schema declares `currentAge` an integer and `averageWeight`
a real; both are modelled as ℚ. -/
structure Flock where
  currentAge : ℚ
  averageWeight : ℚ
  chickCount : ℚ
deriving DecidableEq

/-! ## constants.ts -/

/-- Source `EQUIPMENT_SPECS.fan.airflowFactor` (m³/min per cm diameter per % speed). -/
def fanAirflowFactor : ℚ := 0.85

/-- Source `EQUIPMENT_SPECS.heater.efficiencyFactor`. -/
def heaterEfficiencyFactor : ℚ := 0.8

/-- Source `EQUIPMENT_SPECS.heater.temperatureRise` (°C per kW per 100 m³). -/
def heaterTemperatureRise : ℚ := 0.5

/-- Source `EQUIPMENT_SPECS.inlet.velocityFactor` (m/s per % opening). -/
def inletVelocityFactor : ℚ := 2.5

/-- Source `EQUIPMENT_SPECS.inlet.coolingFactor` (°C reduction per m/s velocity). -/
def inletCoolingFactor : ℚ := 0.1

/-- One row of `AGE_TARGETS`. -/
structure AgeTarget where
  tempMin : ℚ
  tempMax : ℚ
  humidity : ℚ
  ventilation : ℚ
deriving DecidableEq

/-- The `AGE_TARGETS` table, keyed by the 7-day-aligned age bucket;
`none` models an absent property (JS `undefined`). -/
def AGE_TARGETS (ageKey : ℤ) : Option AgeTarget :=
  if ageKey = 0 then some ⟨32, 35, 60, 20⟩
  else if ageKey = 7 then some ⟨29, 32, 60, 25⟩
  else if ageKey = 14 then some ⟨27, 30, 65, 30⟩
  else if ageKey = 21 then some ⟨24, 27, 65, 35⟩
  else if ageKey = 28 then some ⟨21, 24, 70, 40⟩
  else if ageKey = 35 then some ⟨18, 21, 70, 45⟩
  else none

/-- Source `AGE_TARGETS[35]`, the fallback band. -/
def ageTargets35 : AgeTarget := ⟨18, 21, 70, 45⟩

/-- Source `const ageKey = Math.floor(age / 7) * 7;
const targets = AGE_TARGETS[ageKey] || AGE_TARGETS[35];` -/
def lookupTargets (age : ℚ) : AgeTarget :=
  (AGE_TARGETS (⌊age / 7⌋ * 7)).getD ageTargets35

/-! ## calculations.ts — the equipment aggregations -/

/-- Source `volume = farm.length * farm.width * farm.height`. -/
def farmVolume (farm : Farm) : ℚ := farm.length * farm.width * farm.height

/-- Source `surfaceArea = 2 * (l*w + l*h + w*h)`. -/
def farmSurfaceArea (farm : Farm) : ℚ :=
  2 * (farm.length * farm.width + farm.length * farm.height + farm.width * farm.height)

/-- Source `equipment.filter(eq => eq.type === heater && eq.isActive)`. -/
def activeHeaters (equipment : List Equipment) : List Equipment :=
  equipment.filter fun eq => eq.type == EquipType.heater && eq.isActive

/-- Source `equipment.filter(eq => eq.type === fan && eq.isActive)`. -/
def activeFans (equipment : List Equipment) : List Equipment :=
  equipment.filter fun eq => eq.type == EquipType.fan && eq.isActive

/-- Source `equipment.filter(eq => eq.type === inlet)` — note: no `isActive` test. -/
def inletList (equipment : List Equipment) : List Equipment :=
  equipment.filter fun eq => eq.type == EquipType.inlet

/-- Source `totalHeating = activeHeaters.reduce((sum, heater) =>
sum + (power * setting / 100), 0)`. -/
def totalHeating (equipment : List Equipment) : ℚ :=
  (activeHeaters equipment).foldl
    (fun sum heater => sum + heater.specification.power * heater.currentSetting / 100) 0

/-- Source `totalCooling = activeFans.reduce((sum, fan) =>
sum + diameter * EQUIPMENT_SPECS.fan.airflowFactor * setting / 100, 0)`. -/
def totalCooling (equipment : List Equipment) : ℚ :=
  (activeFans equipment).foldl
    (fun sum fan =>
      sum + fan.specification.diameter * fanAirflowFactor * fan.currentSetting / 100) 0

/-- Source `ventilationEffect = inlets.reduce(...)`. Per inlet the source computes
`const surface = inlet.specification?.surface || 0;` but then never uses
`surface`: the summand is
`velocity * coolingFactor * windSpeed * 0.1` with
`velocity = opening * velocityFactor / 100`. The dead `surface` binding is
reproduced here as an unused `let` to mirror the source line for line. -/
def ventilationEffectRaw (equipment : List Equipment) (windSpeed : ℚ) : ℚ :=
  (inletList equipment).foldl
    (fun sum inlet =>
      let _surface := inlet.specification.surface
      let velocity := inlet.currentSetting * inletVelocityFactor / 100
      sum + velocity * inletCoolingFactor * windSpeed * 0.1) 0

/-! ## calculations.ts — the temperature pipeline -/

/-- Source `heatingEffect = totalHeating * efficiencyFactor * temperatureRise / (volume / 100)`. -/
def heatingEffect (farm : Farm) (equipment : List Equipment) : ℚ :=
  totalHeating equipment * heaterEfficiencyFactor * heaterTemperatureRise /
    (farmVolume farm / 100)

/-- Running `insideTemp` after step 2 (heating). -/
def tempAfterHeating (farm : Farm) (equipment : List Equipment) (outsideTemp : ℚ) : ℚ :=
  outsideTemp + heatingEffect farm equipment

/-- Source `coolingEffect = Math.min(totalCooling * 0.001 * Math.max(insideTemp - outsideTemp, 0)
/ volume, insideTemp - outsideTemp)` evaluated at the post-heating `insideTemp`. -/
def coolingEffect (farm : Farm) (equipment : List Equipment) (outsideTemp : ℚ) : ℚ :=
  min (totalCooling equipment * 0.001 *
        max (tempAfterHeating farm equipment outsideTemp - outsideTemp) 0 / farmVolume farm)
      (tempAfterHeating farm equipment outsideTemp - outsideTemp)

/-- Running `insideTemp` after step 3 (fan cooling). -/
def tempAfterCooling (farm : Farm) (equipment : List Equipment) (outsideTemp : ℚ) : ℚ :=
  tempAfterHeating farm equipment outsideTemp - coolingEffect farm equipment outsideTemp

/-- Running `insideTemp` after step 4 (`insideTemp -= ventilationEffect`). -/
def tempAfterVentilation (farm : Farm) (equipment : List Equipment)
    (outsideTemp windSpeed : ℚ) : ℚ :=
  tempAfterCooling farm equipment outsideTemp - ventilationEffectRaw equipment windSpeed

/-- The humidity step, before the final rounding: if the running `insideTemp`
exceeds `outsideTemp`, scale by the Kelvin ratio and clamp to [30, 100]
(`Math.min(100, Math.max(30, ...))`); otherwise keep `outsideHumidity`. -/
def insideHumidityRaw (farm : Farm) (equipment : List Equipment)
    (outsideTemp outsideHumidity windSpeed : ℚ) : ℚ :=
  let t := tempAfterVentilation farm equipment outsideTemp windSpeed
  if outsideTemp < t then
    min 100 (max 30 (outsideHumidity * (outsideTemp + 273.15) / (t + 273.15)))
  else outsideHumidity

/-- JS `flockAge || 18`: `undefined` and `0` are both falsy, so an absent
age and an age of exactly 0 each yield 18. -/
def effectiveAge (flockAge : Option ℚ) : ℚ :=
  match flockAge with
  | none => 18
  | some a => if a = 0 then 18 else a

/-! ## calculations.ts — generateRecommendations

An advisory is modelled by its severity and machine-readable action code;
the `title` and `message` fields are human-readable interpolated strings
consumed by no computation and are not modelled. -/

/-- Advisory severity (warning, info or success). -/
inductive Severity where
  | warning
  | info
  | success
deriving DecidableEq, Repr

/-- The machine-readable `action` codes the generator can emit. -/
inductive Action where
  | temperature_low
  | temperature_high
  | temperature_good
  | humidity_low
  | humidity_high
  | optimize_energy
  | optimize_fans
  | activate_heating
deriving DecidableEq, Repr

instance : BEq Action := ⟨fun a b => decide (a = b)⟩

/-- One generated recommendation. -/
structure Advisory where
  type : Severity
  action : Action
deriving DecidableEq, Repr

/-- The first `push`: exactly one of `temperature_low` / `temperature_high`
/ `temperature_good`, by the `if / else if / else` on the target band. -/
def tempAdvisory (targets : AgeTarget) (insideTemp : ℚ) : List Advisory :=
  if insideTemp < targets.tempMin then [⟨Severity.warning, Action.temperature_low⟩]
  else if insideTemp > targets.tempMax then [⟨Severity.warning, Action.temperature_high⟩]
  else [⟨Severity.success, Action.temperature_good⟩]

/-- The humidity `if / else if`: at most one of `humidity_low` / `humidity_high`. -/
def humidityAdvisory (targets : AgeTarget) (insideHumidity : ℚ) : List Advisory :=
  if insideHumidity < targets.humidity - 10 then [⟨Severity.info, Action.humidity_low⟩]
  else if insideHumidity > targets.humidity + 15 then [⟨Severity.info, Action.humidity_high⟩]
  else []

/-- Source `if (totalHeating > 10 && insideTemp > targets.tempMax)` → `optimize_energy`. -/
def energyAdvisory (targets : AgeTarget) (insideTemp heatingTotal : ℚ) : List Advisory :=
  if 10 < heatingTotal ∧ targets.tempMax < insideTemp then
    [⟨Severity.info, Action.optimize_energy⟩]
  else []

/-- Source `if (activeFans.length > 1 && tempMin <= insideTemp && insideTemp <= tempMax)`
→ `optimize_fans`. -/
def fansAdvisory (targets : AgeTarget) (insideTemp : ℚ)
    (equipment : List Equipment) : List Advisory :=
  if 1 < (activeFans equipment).length ∧
      targets.tempMin ≤ insideTemp ∧ insideTemp ≤ targets.tempMax then
    [⟨Severity.info, Action.optimize_fans⟩]
  else []

/-- Source `if (activeHeaters.length === 0 && insideTemp < targets.tempMin - 2)`
→ `activate_heating`. -/
def heatingAdvisory (targets : AgeTarget) (insideTemp : ℚ)
    (equipment : List Equipment) : List Advisory :=
  if (activeHeaters equipment).length = 0 ∧ insideTemp < targets.tempMin - 2 then
    [⟨Severity.warning, Action.activate_heating⟩]
  else []

/-- Source `generateRecommendations(insideTemp, insideHumidity, age, totalHeating,
totalCooling, equipment)`: the five pushes in source order. The
`totalCooling` parameter is accepted but read nowhere in the body,
exactly as in the source. -/
def generateRecommendations (insideTemp insideHumidity age heatingTotal coolingTotal : ℚ)
    (equipment : List Equipment) : List Advisory :=
  let _ := coolingTotal
  let targets := lookupTargets age
  tempAdvisory targets insideTemp ++
  humidityAdvisory targets insideHumidity ++
  energyAdvisory targets insideTemp heatingTotal ++
  fansAdvisory targets insideTemp equipment ++
  heatingAdvisory targets insideTemp equipment

/-! ## calculations.ts — calculateInsideTemperature -/

/-- The record `calculateInsideTemperature` returns (`EnvironmentalCalculation`). -/
structure EnvironmentalCalculation where
  insideTemp : ℚ
  insideHumidity : ℚ
  totalHeating : ℚ
  totalCooling : ℚ
  ventilationEffect : ℚ
  recommendations : List Advisory
  volume : ℚ
  surfaceArea : ℚ
deriving DecidableEq

/-- Source `calculateInsideTemperature(farm, equipment, outsideTemp, outsideHumidity,
windSpeed, flockAge?)`: heating, then fan cooling, then inlet ventilation,
then the humidity step, then recommendations; temperature, humidity,
ventilation effect and surface area are rounded to one decimal on output. -/
def calculateInsideTemperature (farm : Farm) (equipment : List Equipment)
    (outsideTemp outsideHumidity windSpeed : ℚ) (flockAge : Option ℚ) :
    EnvironmentalCalculation :=
  let tempFinal := tempAfterVentilation farm equipment outsideTemp windSpeed
  let humidity := insideHumidityRaw farm equipment outsideTemp outsideHumidity windSpeed
  { insideTemp := round1 tempFinal
    insideHumidity := round1 humidity
    totalHeating := totalHeating equipment
    totalCooling := totalCooling equipment
    ventilationEffect := round1 (ventilationEffectRaw equipment windSpeed)
    recommendations := generateRecommendations tempFinal humidity (effectiveAge flockAge)
      (totalHeating equipment) (totalCooling equipment) equipment
    volume := farmVolume farm
    surfaceArea := round1 (farmSurfaceArea farm) }

/-! ## calculations.ts — calculateGrowthProjections -/

/-- Source `const baseGrowthRate = Math.max(10, 50 - currentAge * 0.8);`. -/
def baseGrowthRate (currentAge : ℚ) : ℚ := max 10 (50 - currentAge * 0.8)

/-- Source `currentEnvironment.recommendations.some(r => r.action === temperature_good)`. -/
def hasGoodTemp (currentEnvironment : EnvironmentalCalculation) : Bool :=
  currentEnvironment.recommendations.any fun r => r.action == Action.temperature_good

/-- Source `let environmentalFactor = 1.0; if (!hasGoodTemp) environmentalFactor *= 0.85;`. -/
def environmentalFactorOf (currentEnvironment : EnvironmentalCalculation) : ℚ :=
  if hasGoodTemp currentEnvironment then 1.0 else 1.0 * 0.85

/-- The record `calculateGrowthProjections` returns. The source also
returns a `growthRateVsStandard` field,
`Math.round(((averageWeight / getStandardWeight(age)) - 1) * 100 * 10) / 10`
with `getStandardWeight(age) = 40 + age*20 + Math.pow(age, 1.5)*2`;
`age^1.5` is irrational for general ages, no claim mentions that field,
and its value feeds into no other field, so it is not modelled. -/
structure GrowthProjection where
  projectedWeight7d : ℤ
  projectedWeight14d : ℤ
  fcr : ℚ
  environmentalFactor : ℚ
deriving DecidableEq

/-- Source `calculateGrowthProjections(flock, currentEnvironment)`: projected weights
at 7 and 14 days (`Math.round`ed to whole grams), the simplified FCR
(rounded to 2 decimals), and the environmental factor (rounded to 2 decimals). -/
def calculateGrowthProjections (flock : Flock)
    (currentEnvironment : EnvironmentalCalculation) : GrowthProjection :=
  let rate := baseGrowthRate flock.currentAge
  let envF := environmentalFactorOf currentEnvironment
  { projectedWeight7d := jsRound (flock.averageWeight + rate * envF * 7)
    projectedWeight14d := jsRound (flock.averageWeight + rate * envF * 14)
    fcr := round2 (1.2 + flock.currentAge * 0.01 +
      (if hasGoodTemp currentEnvironment then 0 else 0.2))
    environmentalFactor := round2 envF }

/-! ## routes.ts — the second, divergent aggregation
(`POST /api/calculate-environment`) -/

/-- Source `Math.PI` as the exact rational value of the IEEE-754 double
3.141592653589793 (= 884279719003555 · 2⁻⁴⁸). -/
def mathPI : ℚ := 884279719003555 / 281474976710656

/-- Route-handler fan aggregation:
`airflow = Math.PI * Math.pow(diameter / 200, 2) * setting * 50`. -/
def routeTotalCooling (equipment : List Equipment) : ℚ :=
  (activeFans equipment).foldl
    (fun sum fan =>
      sum + mathPI * (fan.specification.diameter / 200) ^ 2 * fan.currentSetting * 50) 0

/-- Route-handler inlet aggregation:
`sum + (surface * opening / 100 * windSpeed * 0.1)`. -/
def routeVentilationEffect (equipment : List Equipment) (windSpeed : ℚ) : ℚ :=
  (inletList equipment).foldl
    (fun sum inlet =>
      sum + inlet.specification.surface * inlet.currentSetting / 100 * windSpeed * 0.1) 0

/-! ## The ventilation formula of the spec (for the refinement comparison in C1) -/

/-- The formula the spec states for `ventilationEffect`:
`Σ over inlets of (surface · velocityFactor/100 · setting) · coolingFactor
· windSpeed · 0.1` — written from the words of the SPEC, to be compared with
`ventilationEffectRaw`, which is written from the source. -/
def specVentilationEffect (equipment : List Equipment) (windSpeed : ℚ) : ℚ :=
  (inletList equipment).foldl
    (fun sum inlet =>
      sum + inlet.specification.surface * (inletVelocityFactor / 100) *
        inlet.currentSetting * inletCoolingFactor * windSpeed * 0.1) 0

/-- Replace the `surface` specification of an equipment, leaving every other
field unchanged (used to state that `ventilationEffectRaw` is independent
of the `surface` fields). -/
def setSurface (s : ℚ) (e : Equipment) : Equipment :=
  { e with specification := { e.specification with surface := s } }

/-- Predicate: the advisory carries one of the three temperature codes. -/
def isTempAction (r : Advisory) : Bool :=
  r.action == Action.temperature_low || r.action == Action.temperature_high ||
    r.action == Action.temperature_good

/-- Predicate: the advisory carries one of the two humidity codes. -/
def isHumAction (r : Advisory) : Bool :=
  r.action == Action.humidity_low || r.action == Action.humidity_high

/-- Predicate: the advisory carries one of the three optimisation codes. -/
def isOptAction (r : Advisory) : Bool :=
  r.action == Action.optimize_energy || r.action == Action.optimize_fans ||
    r.action == Action.activate_heating

/-! ## Helper lemmas -/

lemma beq_action_iff (a b : Action) : (a == b) = true ↔ a = b := by
  show decide (a = b) = true ↔ a = b
  exact decide_eq_true_iff

lemma foldl_add_map_sum {α : Type} (g : α → ℚ) (l : List α) (a : ℚ) :
    l.foldl (fun s x => s + g x) a = a + (l.map g).sum := by
  induction l generalizing a with
  | nil => simp
  | cons x xs ih => simp [List.foldl_cons, ih, add_assoc]

lemma round1_bounds {y lo hi : ℚ} (hlo : lo ≤ y) (hhi : y ≤ hi) :
    lo - 1/20 ≤ round1 y ∧ round1 y ≤ hi + 1/20 := by
  unfold round1 jsRound
  have h1 : (⌊y * 10 + 1/2⌋ : ℚ) ≤ y * 10 + 1/2 := Int.floor_le _
  have h2 : y * 10 + 1/2 - 1 < (⌊y * 10 + 1/2⌋ : ℚ) := Int.sub_one_lt_floor _
  constructor <;> [linarith; linarith]

lemma round1_of_int_bounds {y : ℚ} {lo hi : ℤ} (hlo : (lo : ℚ) ≤ y) (hhi : y ≤ (hi : ℚ)) :
    (lo : ℚ) ≤ round1 y ∧ round1 y ≤ (hi : ℚ) := by
  unfold round1 jsRound
  have h1 : lo * 10 ≤ ⌊y * 10 + 1/2⌋ := by
    rw [Int.le_floor]
    push_cast
    linarith
  have h2 : ⌊y * 10 + 1/2⌋ ≤ hi * 10 := by
    have hlt : ⌊y * 10 + 1/2⌋ < hi * 10 + 1 := Int.floor_lt.mpr (by push_cast; linarith)
    omega
  constructor
  · rw [le_div_iff₀ (by norm_num : (0:ℚ) < 10)]
    exact_mod_cast h1
  · rw [div_le_iff₀ (by norm_num : (0:ℚ) < 10)]
    exact_mod_cast h2

lemma tempAdvisory_counts (targets : AgeTarget) (t : ℚ) :
    (tempAdvisory targets t).countP isTempAction = 1 ∧
    (tempAdvisory targets t).countP isHumAction = 0 ∧
    (tempAdvisory targets t).countP isOptAction = 0 ∧
    (tempAdvisory targets t).length = 1 := by
  unfold tempAdvisory
  split_ifs <;> exact ⟨rfl, rfl, rfl, rfl⟩

lemma humidityAdvisory_counts (targets : AgeTarget) (h : ℚ) :
    (humidityAdvisory targets h).countP isTempAction = 0 ∧
    (humidityAdvisory targets h).countP isHumAction = (humidityAdvisory targets h).length ∧
    (humidityAdvisory targets h).countP isOptAction = 0 ∧
    (humidityAdvisory targets h).length ≤ 1 := by
  unfold humidityAdvisory
  split_ifs <;> exact ⟨rfl, rfl, rfl, by simp⟩

lemma energyAdvisory_counts (targets : AgeTarget) (t heat : ℚ) :
    (energyAdvisory targets t heat).countP isTempAction = 0 ∧
    (energyAdvisory targets t heat).countP isHumAction = 0 ∧
    (energyAdvisory targets t heat).countP isOptAction = (energyAdvisory targets t heat).length := by
  unfold energyAdvisory
  split_ifs <;> exact ⟨rfl, rfl, rfl⟩

lemma fansAdvisory_counts (targets : AgeTarget) (t : ℚ) (equipment : List Equipment) :
    (fansAdvisory targets t equipment).countP isTempAction = 0 ∧
    (fansAdvisory targets t equipment).countP isHumAction = 0 ∧
    (fansAdvisory targets t equipment).countP isOptAction =
      (fansAdvisory targets t equipment).length := by
  unfold fansAdvisory
  split_ifs <;> exact ⟨rfl, rfl, rfl⟩

lemma heatingAdvisory_counts (targets : AgeTarget) (t : ℚ) (equipment : List Equipment) :
    (heatingAdvisory targets t equipment).countP isTempAction = 0 ∧
    (heatingAdvisory targets t equipment).countP isHumAction = 0 ∧
    (heatingAdvisory targets t equipment).countP isOptAction =
      (heatingAdvisory targets t equipment).length := by
  unfold heatingAdvisory
  split_ifs <;> exact ⟨rfl, rfl, rfl⟩

lemma lookupTargets_min_le_max (age : ℚ) :
    (lookupTargets age).tempMin ≤ (lookupTargets age).tempMax := by
  unfold lookupTargets AGE_TARGETS ageTargets35
  split_ifs <;> norm_num

/-- The three optimisation rules are pairwise exclusive: `optimize_energy`
needs `tempMax < t`, `optimize_fans` needs `tempMin ≤ t ≤ tempMax`,
`activate_heating` needs `t < tempMin - 2`. -/
lemma optAdvisories_length (targets : AgeTarget) (hband : targets.tempMin ≤ targets.tempMax)
    (t heat : ℚ) (equipment : List Equipment) :
    (energyAdvisory targets t heat).length + (fansAdvisory targets t equipment).length +
      (heatingAdvisory targets t equipment).length ≤ 1 := by
  unfold energyAdvisory fansAdvisory heatingAdvisory
  split_ifs with h1 h2 h3 h4 h5 h6 <;> simp_all <;> linarith

lemma ventilationEffectRaw_eq_sum (equipment : List Equipment) (windSpeed : ℚ) :
    ventilationEffectRaw equipment windSpeed =
      ((inletList equipment).map (fun inlet =>
        inlet.currentSetting * inletVelocityFactor / 100 * inletCoolingFactor *
          windSpeed * 0.1)).sum := by
  unfold ventilationEffectRaw
  rw [show (fun (sum : ℚ) (inlet : Equipment) =>
        let _surface := inlet.specification.surface
        let velocity := inlet.currentSetting * inletVelocityFactor / 100
        sum + velocity * inletCoolingFactor * windSpeed * 0.1) =
      (fun (sum : ℚ) (inlet : Equipment) => sum +
        inlet.currentSetting * inletVelocityFactor / 100 * inletCoolingFactor *
          windSpeed * 0.1) from rfl]
  rw [foldl_add_map_sum]
  simp

lemma inletList_map_setSurface (s : ℚ) (l : List Equipment) :
    inletList (l.map (setSurface s)) = (inletList l).map (setSurface s) := by
  induction l with
  | nil => rfl
  | cons e es ih =>
    simp only [List.map_cons, inletList, List.filter_cons] at ih ⊢
    by_cases he : (e.type == EquipType.inlet) = true
    · simp only [setSurface, he, if_pos, List.map_cons]
      exact congrArg _ ih
    · simp only [setSurface] at he ⊢
      rw [if_neg (by exact he), if_neg (by exact he)]
      exact ih

/-! ## Claim theorems -/

/-- C1, counterexample: one inlet with `surface = 2`, `currentSetting = 100`,
wind speed 40 in an enclosure of volume 1. The returned
`ventilationEffect` is 1.0 (and the unrounded effect is 1), while the
claimed surface-weighted sum is 2: the formula of the claim disagrees with the
code, because the code never multiplies by `surface`. -/
theorem C1_counterexample :
    (calculateInsideTemperature ⟨1, 1, 1⟩
        [⟨EquipType.inlet, false, 100, ⟨0, 0, 2⟩⟩] 0 50 40 none).ventilationEffect ≠
      specVentilationEffect [⟨EquipType.inlet, false, 100, ⟨0, 0, 2⟩⟩] 40 ∧
    ventilationEffectRaw [⟨EquipType.inlet, false, 100, ⟨0, 0, 2⟩⟩] 40 ≠
      specVentilationEffect [⟨EquipType.inlet, false, 100, ⟨0, 0, 2⟩⟩] 40 := by
  norm_num [calculateInsideTemperature, ventilationEffectRaw, specVentilationEffect,
    inletList, inletVelocityFactor, inletCoolingFactor, round1, jsRound,
    List.filter, List.foldl]

/-- C1, amended: for every equipment list and wind speed, the
(unrounded) ventilation effect of the simulator is the sum over all inlet equipment (active
or not) of `currentSetting · (velocityFactor/100) · coolingFactor ·
windSpeed · 0.1` with `velocityFactor = 2.5` and `coolingFactor = 0.1`;
the `surface` field of each inlet is read but never used, so the effect is
invariant under replacing every `surface` by any value `s`. -/
theorem C1_ventilation_formula (equipment : List Equipment) (windSpeed s : ℚ) :
    ventilationEffectRaw equipment windSpeed =
      ((inletList equipment).map (fun inlet =>
        inlet.currentSetting * (inletVelocityFactor / 100) * inletCoolingFactor *
          windSpeed * 0.1)).sum ∧
    ventilationEffectRaw (equipment.map (setSurface s)) windSpeed =
      ventilationEffectRaw equipment windSpeed := by
  constructor
  · rw [ventilationEffectRaw_eq_sum]
    congr 1
    apply List.map_congr_left
    intro inlet _
    ring
  · rw [ventilationEffectRaw_eq_sum, ventilationEffectRaw_eq_sum,
      inletList_map_setSurface, List.map_map]
    rfl

/-- C2: the shared-module fan aggregation (`diameter · 0.85 · setting/100`)
and the route-layer one (`π · (diameter/200)² · setting · 50`) disagree on a
list holding one active fan of diameter 120 cm at setting 100 (102 vs
1800·π), and the two inlet-ventilation formulas disagree on a list holding
one inlet of surface 2 m² at setting 100 with wind speed 1. -/
theorem C2_aggregations_diverge :
    (∃ equipment : List Equipment,
      (∃ fan ∈ equipment, fan.type = EquipType.fan ∧ fan.isActive = true ∧
        0 < fan.specification.diameter ∧ 0 < fan.currentSetting) ∧
      totalCooling equipment ≠ routeTotalCooling equipment) ∧
    (∃ (equipment : List Equipment) (windSpeed : ℚ),
      ventilationEffectRaw equipment windSpeed ≠
        routeVentilationEffect equipment windSpeed) := by
  refine ⟨⟨[⟨EquipType.fan, true, 100, ⟨0, 120, 0⟩⟩],
      ⟨⟨EquipType.fan, true, 100, ⟨0, 120, 0⟩⟩, by simp, by norm_num⟩,
      by norm_num [totalCooling, routeTotalCooling, activeFans, fanAirflowFactor,
        mathPI, List.filter, List.foldl]⟩,
    ⟨[⟨EquipType.inlet, false, 100, ⟨0, 0, 2⟩⟩], 1,
      by norm_num [ventilationEffectRaw, routeVentilationEffect, inletList,
        inletVelocityFactor, inletCoolingFactor, List.filter, List.foldl]⟩⟩

/-- C3, counterexample: with no equipment the simulated temperature equals
the outside temperature, so the claim demands that the returned
`insideHumidity` equal the supplied `outsideHumidity` exactly; but the
simulator rounds the field to one decimal, and for `outsideHumidity =
45.55` it returns 45.6. -/
theorem C3_counterexample :
    ¬ (0 : ℚ) < tempAfterVentilation ⟨1, 1, 1⟩ [] 0 0 ∧
    (calculateInsideTemperature ⟨1, 1, 1⟩ [] 0 (911/20) 0 none).insideHumidity ≠
      911/20 := by
  norm_num [calculateInsideTemperature, insideHumidityRaw, tempAfterVentilation,
    tempAfterCooling, tempAfterHeating, heatingEffect, coolingEffect, totalHeating,
    totalCooling, ventilationEffectRaw, activeHeaters, activeFans, inletList,
    farmVolume, round1, jsRound, min_def, max_def, List.filter, List.foldl]

/-- C3, amended: whenever the running inside temperature after ventilation
(the value the humidity branch of the source tests) strictly exceeds
`outsideTemp`, the returned `insideHumidity` lies within [30, 100];
otherwise the returned `insideHumidity` equals `outsideHumidity` rounded
to one decimal place. -/
theorem C3_humidity_bounds (farm : Farm) (equipment : List Equipment)
    (outsideTemp outsideHumidity windSpeed : ℚ) (flockAge : Option ℚ) :
    (outsideTemp < tempAfterVentilation farm equipment outsideTemp windSpeed →
      30 ≤ (calculateInsideTemperature farm equipment outsideTemp outsideHumidity
              windSpeed flockAge).insideHumidity ∧
        (calculateInsideTemperature farm equipment outsideTemp outsideHumidity
            windSpeed flockAge).insideHumidity ≤ 100) ∧
    (¬ outsideTemp < tempAfterVentilation farm equipment outsideTemp windSpeed →
      (calculateInsideTemperature farm equipment outsideTemp outsideHumidity
          windSpeed flockAge).insideHumidity = round1 outsideHumidity) := by
  have hfield : (calculateInsideTemperature farm equipment outsideTemp outsideHumidity
      windSpeed flockAge).insideHumidity =
      round1 (insideHumidityRaw farm equipment outsideTemp outsideHumidity windSpeed) := rfl
  constructor
  · intro hc
    rw [hfield]
    unfold insideHumidityRaw
    rw [if_pos hc]
    have h30 : (30 : ℚ) ≤ min 100 (max 30 (outsideHumidity * (outsideTemp + 273.15) /
        (tempAfterVentilation farm equipment outsideTemp windSpeed + 273.15))) :=
      le_min (by norm_num) (le_max_left _ _)
    have h100 : min 100 (max 30 (outsideHumidity * (outsideTemp + 273.15) /
        (tempAfterVentilation farm equipment outsideTemp windSpeed + 273.15))) ≤ 100 :=
      min_le_left _ _
    have := @round1_of_int_bounds _ 30 100
      (by exact_mod_cast h30) (by exact_mod_cast h100)
    exact_mod_cast this
  · intro hc
    rw [hfield]
    unfold insideHumidityRaw
    rw [if_neg hc]

/-- C3, witness: a heated 1 m³ enclosure (15 kW heater at 45 %) pushes the
inside temperature above `outsideTemp = 22`, and the returned humidity is
within [30, 100]; with no equipment at `outsideTemp = 0` the returned
humidity is `round1 50`. -/
theorem C3_humidity_bounds_witness :
    (30 ≤ (calculateInsideTemperature ⟨1, 1, 1⟩
        [⟨EquipType.heater, true, 45, ⟨15, 0, 0⟩⟩] 22 45 0 none).insideHumidity ∧
      (calculateInsideTemperature ⟨1, 1, 1⟩
        [⟨EquipType.heater, true, 45, ⟨15, 0, 0⟩⟩] 22 45 0 none).insideHumidity ≤ 100) ∧
    (calculateInsideTemperature ⟨1, 1, 1⟩ [] 0 50 0 none).insideHumidity = round1 50 :=
  ⟨(C3_humidity_bounds ⟨1, 1, 1⟩ [⟨EquipType.heater, true, 45, ⟨15, 0, 0⟩⟩]
      22 45 0 none).1
      (by norm_num [tempAfterVentilation, tempAfterCooling, tempAfterHeating,
        heatingEffect, coolingEffect, totalHeating, totalCooling,
        ventilationEffectRaw, activeHeaters, activeFans, inletList, farmVolume,
        heaterEfficiencyFactor, heaterTemperatureRise, fanAirflowFactor,
        inletVelocityFactor, inletCoolingFactor,
        min_def, max_def, List.filter, List.foldl]),
    (C3_humidity_bounds ⟨1, 1, 1⟩ [] 0 50 0 none).2
      (by norm_num [tempAfterVentilation, tempAfterCooling, tempAfterHeating,
        heatingEffect, coolingEffect, totalHeating, totalCooling,
        ventilationEffectRaw, activeHeaters, activeFans, inletList, farmVolume,
        heaterEfficiencyFactor, heaterTemperatureRise, fanAirflowFactor,
        inletVelocityFactor, inletCoolingFactor,
        min_def, max_def, List.filter, List.foldl])⟩

/-- C4: for every input, the advisory list produced by
`generateRecommendations` contains exactly one advisory whose action code
is among `temperature_low`, `temperature_high`, `temperature_good`. -/
theorem C4_exactly_one_temperature_code
    (insideTemp insideHumidity age heatingTotal coolingTotal : ℚ)
    (equipment : List Equipment) :
    ((generateRecommendations insideTemp insideHumidity age heatingTotal coolingTotal
      equipment).countP isTempAction) = 1 := by
  unfold generateRecommendations
  simp only [List.countP_append]
  have h1 := tempAdvisory_counts (lookupTargets age) insideTemp
  have h2 := humidityAdvisory_counts (lookupTargets age) insideHumidity
  have h3 := energyAdvisory_counts (lookupTargets age) insideTemp heatingTotal
  have h4 := fansAdvisory_counts (lookupTargets age) insideTemp equipment
  have h5 := heatingAdvisory_counts (lookupTargets age) insideTemp equipment
  omega

/-- C5, counterexample: one inlet (no active heaters, no active fans) at
setting 100, wind speed 8, outside temperature 0.03 °C, in a 1 m³
enclosure. The unrounded ventilation effect is 0.2, so the returned
`insideTemp` is `round1(0.03 − 0.2) = −0.2`, while `outsideTemp` minus the
returned `ventilationEffect` is `0.03 − 0.2 = −0.17`: the claimed identity
fails on the rounded output fields. -/
theorem C5_counterexample :
    0 < farmVolume ⟨1, 1, 1⟩ ∧
    activeHeaters [⟨EquipType.inlet, false, 100, ⟨0, 0, 2⟩⟩] = [] ∧
    activeFans [⟨EquipType.inlet, false, 100, ⟨0, 0, 2⟩⟩] = [] ∧
    (calculateInsideTemperature ⟨1, 1, 1⟩ [⟨EquipType.inlet, false, 100, ⟨0, 0, 2⟩⟩]
        (3/100) 50 8 none).insideTemp ≠
      3/100 - (calculateInsideTemperature ⟨1, 1, 1⟩
        [⟨EquipType.inlet, false, 100, ⟨0, 0, 2⟩⟩] (3/100) 50 8 none).ventilationEffect := by
  refine ⟨by norm_num [farmVolume], by norm_num [activeHeaters, List.filter],
    by norm_num [activeFans, List.filter], ?_⟩
  norm_num [calculateInsideTemperature, tempAfterVentilation, tempAfterCooling,
    tempAfterHeating, heatingEffect, coolingEffect, totalHeating, totalCooling,
    ventilationEffectRaw, activeHeaters, activeFans, inletList, farmVolume,
    heaterEfficiencyFactor, heaterTemperatureRise, fanAirflowFactor,
    inletVelocityFactor, inletCoolingFactor, round1, jsRound,
    min_def, max_def, List.filter, List.foldl]

/-- C5, amended: with no active heaters and no active fans and positive
enclosure volume, the heating and cooling contributions are exactly zero
and the unrounded inside temperature equals `outsideTemp` minus the
unrounded ventilation effect; the returned `insideTemp` is that difference
rounded to one decimal, and the returned `ventilationEffect` is the
unrounded effect rounded to one decimal (the two roundings need not
commute with the subtraction). -/
theorem C5_no_active_heat_or_fans (farm : Farm) (equipment : List Equipment)
    (outsideTemp outsideHumidity windSpeed : ℚ) (flockAge : Option ℚ)
    (hvol : 0 < farmVolume farm)
    (hheat : activeHeaters equipment = [])
    (hfans : activeFans equipment = []) :
    heatingEffect farm equipment = 0 ∧
    coolingEffect farm equipment outsideTemp = 0 ∧
    tempAfterVentilation farm equipment outsideTemp windSpeed =
      outsideTemp - ventilationEffectRaw equipment windSpeed ∧
    (calculateInsideTemperature farm equipment outsideTemp outsideHumidity windSpeed
        flockAge).insideTemp =
      round1 (outsideTemp - ventilationEffectRaw equipment windSpeed) ∧
    (calculateInsideTemperature farm equipment outsideTemp outsideHumidity windSpeed
        flockAge).ventilationEffect =
      round1 (ventilationEffectRaw equipment windSpeed) := by
  have hTH : totalHeating equipment = 0 := by unfold totalHeating; rw [hheat]; rfl
  have hTC : totalCooling equipment = 0 := by unfold totalCooling; rw [hfans]; rfl
  have hHE : heatingEffect farm equipment = 0 := by
    unfold heatingEffect; rw [hTH]; simp
  have hAH : tempAfterHeating farm equipment outsideTemp = outsideTemp := by
    unfold tempAfterHeating; rw [hHE]; ring
  have hCE : coolingEffect farm equipment outsideTemp = 0 := by
    unfold coolingEffect; rw [hTC, hAH]; simp
  have hAV : tempAfterVentilation farm equipment outsideTemp windSpeed =
      outsideTemp - ventilationEffectRaw equipment windSpeed := by
    unfold tempAfterVentilation tempAfterCooling; rw [hAH, hCE]; ring
  exact ⟨hHE, hCE, hAV, by
    show round1 (tempAfterVentilation farm equipment outsideTemp windSpeed) = _
    rw [hAV], rfl⟩

/-- C5, witness: the amended statement evaluated at the 1 m³ enclosure with
one inlet at setting 100, wind speed 8, outside temperature 0.03 °C. -/
theorem C5_no_active_heat_or_fans_witness :
    heatingEffect ⟨1, 1, 1⟩ [⟨EquipType.inlet, false, 100, ⟨0, 0, 2⟩⟩] = 0 ∧
    coolingEffect ⟨1, 1, 1⟩ [⟨EquipType.inlet, false, 100, ⟨0, 0, 2⟩⟩] (3/100) = 0 ∧
    tempAfterVentilation ⟨1, 1, 1⟩ [⟨EquipType.inlet, false, 100, ⟨0, 0, 2⟩⟩] (3/100) 8 =
      3/100 - ventilationEffectRaw [⟨EquipType.inlet, false, 100, ⟨0, 0, 2⟩⟩] 8 ∧
    (calculateInsideTemperature ⟨1, 1, 1⟩ [⟨EquipType.inlet, false, 100, ⟨0, 0, 2⟩⟩]
        (3/100) 50 8 none).insideTemp =
      round1 (3/100 - ventilationEffectRaw [⟨EquipType.inlet, false, 100, ⟨0, 0, 2⟩⟩] 8) ∧
    (calculateInsideTemperature ⟨1, 1, 1⟩ [⟨EquipType.inlet, false, 100, ⟨0, 0, 2⟩⟩]
        (3/100) 50 8 none).ventilationEffect =
      round1 (ventilationEffectRaw [⟨EquipType.inlet, false, 100, ⟨0, 0, 2⟩⟩] 8) :=
  C5_no_active_heat_or_fans ⟨1, 1, 1⟩ [⟨EquipType.inlet, false, 100, ⟨0, 0, 2⟩⟩]
    (3/100) 50 8 none (by norm_num [farmVolume])
    (by norm_num [activeHeaters, List.filter])
    (by norm_num [activeFans, List.filter])

/-- C6: for positive enclosure volume and non-negative heater powers, fan
diameters, and settings, the running inside temperature immediately after
the fan-cooling step is at least the outside temperature: the `min` bound
caps the cooling effect at `insideTemp − outsideTemp`. -/
theorem C6_cooling_never_undershoots (farm : Farm) (equipment : List Equipment)
    (outsideTemp : ℚ)
    (hvol : 0 < farmVolume farm)
    (hnn : ∀ e ∈ equipment, 0 ≤ e.specification.power ∧
      0 ≤ e.specification.diameter ∧ 0 ≤ e.currentSetting) :
    outsideTemp ≤ tempAfterCooling farm equipment outsideTemp := by
  unfold tempAfterCooling coolingEffect
  have h := min_le_right
    (totalCooling equipment * 0.001 *
      max (tempAfterHeating farm equipment outsideTemp - outsideTemp) 0 / farmVolume farm)
    (tempAfterHeating farm equipment outsideTemp - outsideTemp)
  linarith

/-- C6, witness: a 24×12×3.5 m enclosure with one active heater (15 kW at
45 %) and one active fan (120 cm at 100 %). -/
theorem C6_cooling_never_undershoots_witness :
    (22 : ℚ) ≤ tempAfterCooling ⟨24, 12, 7/2⟩
      [⟨EquipType.heater, true, 45, ⟨15, 0, 0⟩⟩,
       ⟨EquipType.fan, true, 100, ⟨0, 120, 0⟩⟩] 22 :=
  C6_cooling_never_undershoots ⟨24, 12, 7/2⟩
    [⟨EquipType.heater, true, 45, ⟨15, 0, 0⟩⟩,
     ⟨EquipType.fan, true, 100, ⟨0, 120, 0⟩⟩] 22
    (by norm_num [farmVolume]) (by intro e he; fin_cases he <;> norm_num)

/-- C7: for every flock and simulation result, the `fcr` field of the projector equals
`1.2 + currentAge·0.01 + (0 if the recommendations contain
`temperature_good`, else 0.2)` rounded to two decimals; and at
`currentAge = 42`, `averageWeight = 485` with a result carrying no
`temperature_good` advisory, `fcr = 1.82` and `environmentalFactor = 0.85`. -/
theorem C7_fcr_formula (flock : Flock) (env : EnvironmentalCalculation) :
    ((calculateGrowthProjections flock env).fcr =
      round2 (1.2 + flock.currentAge * 0.01 +
        (if ∃ r ∈ env.recommendations, r.action = Action.temperature_good
          then 0 else 0.2))) ∧
    hasGoodTemp ⟨20, 50, 0, 0, 0, [⟨Severity.warning, Action.temperature_low⟩], 1, 6⟩
      = false ∧
    (calculateGrowthProjections ⟨42, 485, 1000⟩
      ⟨20, 50, 0, 0, 0, [⟨Severity.warning, Action.temperature_low⟩], 1, 6⟩).fcr
      = 1.82 ∧
    (calculateGrowthProjections ⟨42, 485, 1000⟩
      ⟨20, 50, 0, 0, 0, [⟨Severity.warning, Action.temperature_low⟩], 1, 6⟩).environmentalFactor
      = 0.85 := by
  refine ⟨?_, rfl, ?_, ?_⟩
  · have hiff : (hasGoodTemp env = true) ↔
        (∃ r ∈ env.recommendations, r.action = Action.temperature_good) := by
      unfold hasGoodTemp
      rw [List.any_eq_true]
      simp only [beq_action_iff]
    simp only [calculateGrowthProjections, hiff]
  · have h : hasGoodTemp ⟨20, 50, 0, 0, 0,
        [⟨Severity.warning, Action.temperature_low⟩], 1, 6⟩ = false := rfl
    norm_num [calculateGrowthProjections, h, baseGrowthRate,
      environmentalFactorOf, round2, jsRound, min_def, max_def]
  · have h : hasGoodTemp ⟨20, 50, 0, 0, 0,
        [⟨Severity.warning, Action.temperature_low⟩], 1, 6⟩ = false := rfl
    norm_num [calculateGrowthProjections, h, baseGrowthRate,
      environmentalFactorOf, round2, jsRound, min_def, max_def]

/-- C8: whenever `baseGrowthRate = max(10, 50 − currentAge·0.8)` is
non-negative (which the `max` guarantees for every age), the projected
weights are monotone: `averageWeight ≤ projectedWeight7d ≤
projectedWeight14d`. -/
theorem C8_projection_monotone (flock : Flock) (env : EnvironmentalCalculation)
    (hrate : 0 ≤ baseGrowthRate flock.currentAge) :
    flock.averageWeight ≤ ((calculateGrowthProjections flock env).projectedWeight7d : ℚ) ∧
    (calculateGrowthProjections flock env).projectedWeight7d ≤
      (calculateGrowthProjections flock env).projectedWeight14d := by
  have h10 : (10 : ℚ) ≤ baseGrowthRate flock.currentAge := le_max_left _ _
  have henv : (0.85 : ℚ) ≤ environmentalFactorOf env := by
    unfold environmentalFactorOf; split_ifs <;> norm_num
  have hg : (17/2 : ℚ) ≤ baseGrowthRate flock.currentAge * environmentalFactorOf env := by
    calc (17/2 : ℚ) = 10 * 0.85 := by norm_num
      _ ≤ baseGrowthRate flock.currentAge * environmentalFactorOf env :=
          mul_le_mul h10 henv (by norm_num) (by linarith)
  have h7 : (calculateGrowthProjections flock env).projectedWeight7d =
      jsRound (flock.averageWeight +
        baseGrowthRate flock.currentAge * environmentalFactorOf env * 7) := rfl
  have h14 : (calculateGrowthProjections flock env).projectedWeight14d =
      jsRound (flock.averageWeight +
        baseGrowthRate flock.currentAge * environmentalFactorOf env * 14) := rfl
  constructor
  · rw [h7]
    unfold jsRound
    have hfl := Int.sub_one_lt_floor (flock.averageWeight +
      baseGrowthRate flock.currentAge * environmentalFactorOf env * 7 + 1/2)
    linarith
  · rw [h7, h14]
    unfold jsRound
    apply Int.floor_mono
    linarith

/-- C8, witness: the flock of age 42 and average weight 485 g, with a
temperature-low simulation result. -/
theorem C8_projection_monotone_witness :
    (485 : ℚ) ≤ ((calculateGrowthProjections ⟨42, 485, 1000⟩
      ⟨20, 50, 0, 0, 0, [⟨Severity.warning, Action.temperature_low⟩], 1, 6⟩).projectedWeight7d : ℚ) ∧
    (calculateGrowthProjections ⟨42, 485, 1000⟩
      ⟨20, 50, 0, 0, 0, [⟨Severity.warning, Action.temperature_low⟩], 1, 6⟩).projectedWeight7d ≤
    (calculateGrowthProjections ⟨42, 485, 1000⟩
      ⟨20, 50, 0, 0, 0, [⟨Severity.warning, Action.temperature_low⟩], 1, 6⟩).projectedWeight14d :=
  C8_projection_monotone ⟨42, 485, 1000⟩
    ⟨20, 50, 0, 0, 0, [⟨Severity.warning, Action.temperature_low⟩], 1, 6⟩
    (by norm_num [baseGrowthRate, min_def, max_def])

/-- C9: calling the simulator with `flockAge = 0` produces exactly the same
result as calling it with `flockAge` absent — JS `flockAge || 18` treats 0
as falsy — so both run the recommendation generator with age 18, whose age
bucket is 14 (band `tempMin 27, tempMax 30`), not the day-0 band
(`tempMin 32, tempMax 35`). -/
theorem C9_age_zero_is_default (farm : Farm) (equipment : List Equipment)
    (outsideTemp outsideHumidity windSpeed : ℚ) :
    calculateInsideTemperature farm equipment outsideTemp outsideHumidity windSpeed
        (some 0) =
      calculateInsideTemperature farm equipment outsideTemp outsideHumidity windSpeed
        none ∧
    effectiveAge (some 0) = 18 ∧
    effectiveAge none = 18 ∧
    lookupTargets 18 = ⟨27, 30, 65, 30⟩ ∧
    lookupTargets 0 = ⟨32, 35, 60, 20⟩ := by
  have hage : effectiveAge (some 0) = effectiveAge none := by
    simp [effectiveAge]
  refine ⟨by simp only [calculateInsideTemperature, hage], by simp [effectiveAge], rfl,
    ?_, ?_⟩
  · norm_num [lookupTargets, AGE_TARGETS, Option.getD]
  · norm_num [lookupTargets, AGE_TARGETS, Option.getD]

/-- C10: every invocation of the recommendation generator yields between 1
and 3 advisories: exactly one temperature code, at most one humidity code
(`humidity_low` and `humidity_high` are mutually exclusive), and at most
one of `optimize_energy`, `optimize_fans`, `activate_heating` (their
temperature conditions are pairwise incompatible). -/
theorem C10_advisory_structure
    (insideTemp insideHumidity age heatingTotal coolingTotal : ℚ)
    (equipment : List Equipment) :
    1 ≤ (generateRecommendations insideTemp insideHumidity age heatingTotal coolingTotal
      equipment).length ∧
    (generateRecommendations insideTemp insideHumidity age heatingTotal coolingTotal
      equipment).length ≤ 3 ∧
    (generateRecommendations insideTemp insideHumidity age heatingTotal coolingTotal
      equipment).countP isTempAction = 1 ∧
    (generateRecommendations insideTemp insideHumidity age heatingTotal coolingTotal
      equipment).countP isHumAction ≤ 1 ∧
    (generateRecommendations insideTemp insideHumidity age heatingTotal coolingTotal
      equipment).countP isOptAction ≤ 1 := by
  unfold generateRecommendations
  simp only [List.countP_append, List.length_append]
  have h1 := tempAdvisory_counts (lookupTargets age) insideTemp
  have h2 := humidityAdvisory_counts (lookupTargets age) insideHumidity
  have h3 := energyAdvisory_counts (lookupTargets age) insideTemp heatingTotal
  have h4 := fansAdvisory_counts (lookupTargets age) insideTemp equipment
  have h5 := heatingAdvisory_counts (lookupTargets age) insideTemp equipment
  have h6 := optAdvisories_length (lookupTargets age) (lookupTargets_min_le_max age)
    insideTemp heatingTotal equipment
  omega

end Gestapp
